import Mathlib

/-!
Verification development for the kusto-tool query builder.

The repository snapshot contains src/src/kusto_tool/database.py, the package
init file and the text-only example tests.  The expression module (TableExpr,
col, quote, operator combinators) and the function library (sum_) are imported
by that code but their source file is not in the snapshot, so those parts are
modelled from the specification (spec.md) and pinned against the exact render
strings asserted by src/tests/test_text_only_examples.py.  Everything taken
from database.py is a direct translation of the Python source.
-/

namespace KustoTool

/-- Model of Python str.join: joins a list of strings with a separator. -/
def joinSep (sep : String) : List String → String
  | [] => ""
  | [x] => x
  | x :: y :: xs => x ++ sep ++ joinSep sep (y :: xs)

/-- Model of the Jinja2 template engine's treatment of a template's final
newline: with the default keep_trailing_newline=False, a single trailing
newline of the template source is stripped before rendering. -/
def stripTrailingNewline (s : String) : String :=
  if s.data.getLast? = some '\n' then String.mk s.data.dropLast else s

/-- Errors surfaced by the builder.  invalidStageArgument is modelled from the
spec's error taxonomy (the stage validation code lives in the expression
module, absent from the snapshot); unsupportedCapability carries the message
of the RuntimeError that database.py raises for inspect=True; nameError
models a Python NameError for an undefined module-level name. -/
inductive KustoError where
  | invalidStageArgument
  | unsupportedCapability (msg : String)
  | nameError (name : String)

/-- Modelled from the spec (section 4.1): the scalar values the Literal
Renderer supports.  The embedded-quote escaping rule for strings is an open
question in the spec and is not modelled; no claim exercises it. -/
inductive Scalar where
  | str (s : String)
  | int (n : Int)
  | bool (b : Bool)
  | null

/-- Modelled from the spec (section 4.1, Literal Renderer; the quote function
lives in the absent expression module): strings are single-quoted, numbers
render as native text, booleans as the two fixed tokens, null as the null
token. -/
def quote : Scalar → String
  | .str s => "'" ++ s ++ "'"
  | .int n => toString n
  | .bool b => if b then "true" else "false"
  | .null => "null"

/-- Modelled from the spec (section 3): scalar expressions are immutable trees
of column references, literals, binary operations (carrying their rendered
operator text) and function calls. -/
inductive Expr where
  | col (name : String)
  | lit (v : Scalar)
  | binop (op : String) (l r : Expr)
  | call (name : String) (args : List Expr)

mutual

/-- Modelled from the spec (sections 3 and 4.2): a column reference renders as
the raw identifier, a literal via the Literal Renderer, a binary operation as
left, one space, operator text, one space, right, with no parentheses added,
and a function call as name(arg1, arg2, ...) with comma-space joined args. -/
def renderExpr : Expr → String
  | .col n => n
  | .lit v => quote v
  | .binop op l r => renderExpr l ++ " " ++ op ++ " " ++ renderExpr r
  | .call f args => f ++ "(" ++ joinSep ", " (renderExprs args) ++ ")"

/-- Renders each expression of a list (helper for function-call arguments). -/
def renderExprs : List Expr → List String
  | [] => []
  | e :: es => renderExpr e :: renderExprs es

end

/-- Column-reference constructor col(name) from the absent expression module,
modelled from the spec (section 4.2). -/
def col (name : String) : Expr := Expr.col name

/-- Modelled from the spec (section 4.2): the == combinator builds a BinaryOp
node; a raw host value on the right-hand side is wrapped as a Literal, here
made explicit by taking a Scalar. -/
def Expr.eq (l : Expr) (r : Scalar) : Expr := .binop "==" l (.lit r)

/-- Modelled from the spec (section 4.2): the > combinator builds a BinaryOp
node with the raw right-hand value wrapped as a Literal. -/
def Expr.gt (l : Expr) (r : Scalar) : Expr := .binop ">" l (.lit r)

/-- Modelled from the spec (section 4.3): the function library's sum_
constructor (trailing-underscore alias for the reserved word) renders the
backend name sum and wraps its raw column-name argument as a ColumnRef. -/
def sum_ (column : String) : Expr := .call "sum" [.col column]

/-- Modelled from the spec (section 3): the pipeline stage variants.  Project
and Sort are restricted to column names and Sort omits the optional
descending flag, the only forms the claims and the repository tests
exercise. -/
inductive Stage where
  | project (columns : List String)
  | where_ (conditions : List Expr)
  | summarize (aggregations : List (String × Expr)) (groupBy : List String)
  | sort (columns : List String)
  | limit (count : Int)

/-- Modelled from the spec (section 4.4, rendering step 2) and the exact
strings asserted in src/tests/test_text_only_examples.py: where and limit are
inline; project lists each column tab-indented, comma-terminated except the
last; sort renders the verb order by and one tab-indented comma-space-joined
line; summarize renders tab-indented name=expression assignments and, only
for a non-empty groupBy, a further tab-indented by line. -/
def renderStage : Stage → String
  | .project cols => "| project\n\t" ++ joinSep ",\n\t" cols
  | .where_ conds => "| where " ++ joinSep " and " (conds.map renderExpr)
  | .summarize aggs groupBy =>
      "| summarize\n\t" ++ joinSep ",\n\t" (aggs.map (fun a => a.1 ++ "=" ++ renderExpr a.2)) ++
        (if groupBy.isEmpty then "" else "\n\tby " ++ joinSep ", " groupBy)
  | .sort cols => "| order by\n\t" ++ joinSep ", " cols
  | .limit n => "| limit " ++ toString n

/-- KustoDatabase from database.py: holds a cluster name and a database
name. -/
structure KustoDatabase where
  cluster : String
  database : String

/-- DatabaseRef from database.py: a database-only naming context. -/
structure DatabaseRef where
  database : String

/-- The naming context a table expression may carry: either a
cluster+database context or a database-only context. -/
inductive DbCtx where
  | cdb (db : KustoDatabase)
  | dref (db : DatabaseRef)

/-- KustoDatabase.table_ref from database.py: renders the fully qualified
cluster('...').database('...').['Table'] reference. -/
def KustoDatabase.table_ref (db : KustoDatabase) (name : String) : String :=
  "cluster('" ++ db.cluster ++ "').database('" ++ db.database ++ "').['" ++ name ++ "']"

/-- DatabaseRef.table_ref from database.py: renders the
database('...').['Table'] reference without a cluster prefix. -/
def DatabaseRef.table_ref (db : DatabaseRef) (name : String) : String :=
  "database('" ++ db.database ++ "').['" ++ name ++ "']"

/-- Dispatches a naming context to its table_ref rendering. -/
def DbCtx.ref : DbCtx → String → String
  | .cdb db, name => db.table_ref name
  | .dref db, name => db.table_ref name

/-- Modelled from the spec (section 3): a table expression is a base name, an
optional naming context and an ordered stage list.  The columns argument of
the Python constructor is ignored by rendering and is omitted. -/
structure TableExpr where
  name : String
  database : Option DbCtx
  stages : List Stage

/-- The first rendered line: the naming context's qualified reference when
present, else the bare base name (spec section 4.4, rendering step 1). -/
def TableExpr.baseRef (t : TableExpr) : String :=
  match t.database with
  | some c => c.ref t.name
  | none => t.name

/-- Modelled from the spec (section 4.4, rendering step 3) and the test file:
the base reference line and the stage renderings are joined with newlines and
the output ends with a trailing newline. -/
def TableExpr.render (t : TableExpr) : String :=
  joinSep "\n" (t.baseRef :: t.stages.map renderStage) ++ "\n"

/-- Modelled from the spec (section 4.4): project validates against an empty
column list and returns a new value with the stage appended. -/
def TableExpr.project (t : TableExpr) (columns : List String) : Except KustoError TableExpr :=
  if columns.isEmpty then .error .invalidStageArgument
  else .ok { t with stages := t.stages ++ [.project columns] }

/-- Modelled from the spec (section 4.4): where appends a Where stage holding
the condition list (an implicit conjunction) and returns a new value. -/
def TableExpr.where_ (t : TableExpr) (conditions : List Expr) : TableExpr :=
  { t with stages := t.stages ++ [.where_ conditions] }

/-- Modelled from the spec (section 4.4): summarize validates against an empty
aggregation mapping and returns a new value with the stage appended. -/
def TableExpr.summarize (t : TableExpr) (aggregations : List (String × Expr))
    (groupBy : List String) : Except KustoError TableExpr :=
  if aggregations.isEmpty then .error .invalidStageArgument
  else .ok { t with stages := t.stages ++ [.summarize aggregations groupBy] }

/-- Modelled from the spec (section 4.4): sort validates against an empty
column list and returns a new value with the stage appended. -/
def TableExpr.sort (t : TableExpr) (columns : List String) : Except KustoError TableExpr :=
  if columns.isEmpty then .error .invalidStageArgument
  else .ok { t with stages := t.stages ++ [.sort columns] }

/-- Modelled from the spec (sections 4.4 and 7): limit rejects a negative
count with InvalidStageArgument at attachment time and otherwise returns a
new value with the stage appended. -/
def TableExpr.limit (t : TableExpr) (count : Int) : Except KustoError TableExpr :=
  if count < 0 then .error .invalidStageArgument
  else .ok { t with stages := t.stages ++ [.limit count] }

/-- table(name, columns=None) from database.py: a table expression without a
naming context. -/
def table (name : String) : TableExpr := ⟨name, none, []⟩

/-- q(name) from database.py: schema-free constructor for a bare table
name. -/
def q (name : String) : TableExpr := ⟨name, none, []⟩

/-- query(name) from database.py: alias of q. -/
def query (name : String) : TableExpr := q name

/-- list_to_kusto from database.py: quotes every element of the iterable and
joins them into a dynamic([...]) literal, one item per line.  The per-element
renderer (the quote function of the absent expression module) is a
parameter; str.join is modelled by joinSep. -/
def list_to_kusto {α : Type} (qt : α → String) (lst : List α) : String :=
  "dynamic([\n\t" ++ joinSep ",\n\t" (lst.map qt) ++ "\n])"

/-- maybe_read_file from database.py with the filesystem abstracted as the
predicate isFile.  When the argument is an existing file path the function
body first evaluates the module-level name logger, which is never defined or
imported in database.py, so Python raises NameError before any file is read;
otherwise the argument is returned unchanged. -/
def maybe_read_file (isFile : String → Bool) (query : String) : Except KustoError String :=
  if isFile query then .error (.nameError "logger")
  else .ok query

/-- render_template_query from database.py, restricted to query strings that
contain no template directives and no kwargs (the generic template engine is
out of scope per spec section 6): the Jinja2 render of plain text is the text
with a single trailing newline stripped (keep_trailing_newline=False). -/
def render_template_query (isFile : String → Bool) (query : String) : Except KustoError String :=
  (maybe_read_file isFile query).map stripTrailingNewline

/-- render_set from database.py: reads or keeps the query, renders it, then
renders the .set-or-append / .set-or-replace template.  The template literal
in the source ends with a newline after the query placeholder, which Jinja2
strips at lex time (keep_trailing_newline=False), so the substituted output
ends with the rendered query itself. -/
def render_set (isFile : String → Bool) (query table folder docstring : String)
    (replace : Bool) : Except KustoError String := do
  let src ← maybe_read_file isFile query
  let query_rendered ← render_template_query isFile src
  let command := if replace then "replace" else "append"
  pure (".set-or-" ++ command ++ " " ++ table ++ "\nwith (\nfolder = \"" ++ folder ++
    "\",\ndocstring = \"" ++ docstring ++ "\",\n)\n<|\n" ++ query_rendered)

/-- KustoDatabase.table from database.py: raises for inspect=True (the
RuntimeError realizing the spec's UnsupportedCapability) and otherwise
returns a table expression carrying this naming context. -/
def KustoDatabase.table (db : KustoDatabase) (name : String) (inspect : Bool) :
    Except KustoError TableExpr :=
  if inspect then .error (.unsupportedCapability "inspect=True is not supported in query-only mode.")
  else .ok ⟨name, some (.cdb db), []⟩

/-- DatabaseRef.table from database.py: same contract as KustoDatabase.table
for the database-only context. -/
def DatabaseRef.table (db : DatabaseRef) (name : String) (inspect : Bool) :
    Except KustoError TableExpr :=
  if inspect then .error (.unsupportedCapability "inspect=True is not supported in query-only mode.")
  else .ok ⟨name, some (.dref db), []⟩

/-! Helper lemmas about Except reduction and joinSep. -/

/-- Monadic bind on a successful Except value applies the continuation. -/
theorem bind_ok_ex {ε α β : Type} (a : α) (f : α → Except ε β) :
    ((Except.ok a : Except ε α) >>= f) = f a := rfl

/-- Monadic bind on a failed Except value propagates the error. -/
theorem bind_error_ex {ε α β : Type} (e : ε) (f : α → Except ε β) :
    ((Except.error e : Except ε α) >>= f) = Except.error e := rfl

/-- Mapping over a successful Except value applies the function. -/
theorem map_ok_ex {ε α β : Type} (f : α → β) (a : α) :
    Except.map f (Except.ok a : Except ε α) = Except.ok (f a) := rfl

/-- Mapping over a failed Except value propagates the error. -/
theorem map_error_ex {ε α β : Type} (f : α → β) (e : ε) :
    Except.map f (Except.error e : Except ε α) = Except.error e := rfl

/-- Pure in the Except monad is the ok constructor. -/
theorem pure_ex {ε α : Type} (a : α) : (pure a : Except ε α) = Except.ok a := rfl

/-- On a path that is not an existing file, maybe_read_file returns its
argument unchanged. -/
theorem maybe_read_file_not_file (isFile : String → Bool) (s : String)
    (h : isFile s = false) : maybe_read_file isFile s = Except.ok s := by
  rw [maybe_read_file, h]
  rfl

/-- On a path to an existing file, maybe_read_file fails with the NameError
for the undefined name logger. -/
theorem maybe_read_file_is_file (isFile : String → Bool) (s : String)
    (h : isFile s = true) :
    maybe_read_file isFile s = Except.error (KustoError.nameError "logger") := by
  rw [maybe_read_file, h]
  rfl

/-- Appending one more element to a joined list appends one more separator and
the element. -/
theorem joinSep_cons_append (sep x y : String) (l : List String) :
    joinSep sep (x :: (l ++ [y])) = joinSep sep (x :: l) ++ sep ++ y := by
  induction l generalizing x with
  | nil => rfl
  | cons z l ih =>
    show x ++ sep ++ joinSep sep (z :: (l ++ [y])) = x ++ sep ++ joinSep sep (z :: l) ++ sep ++ y
    rw [ih z]
    simp [String.append_assoc]

/-- A joined non-empty list followed by a tail equals the head followed by the
right-nested chain of separator-prefixed elements ending in the tail. -/
theorem joinSep_foldr (sep tail x : String) (xs : List String) :
    joinSep sep (x :: xs) ++ tail =
      x ++ (xs.map (fun w => sep ++ w)).foldr (fun a b => a ++ b) tail := by
  induction xs generalizing x with
  | nil => rfl
  | cons z l ih =>
    show x ++ sep ++ joinSep sep (z :: l) ++ tail = _
    rw [String.append_assoc (x ++ sep), ih z]
    simp [String.append_assoc]

/-! Theorems for the claims. -/

/-- Claim C1: the filter pipeline built from table (equivalently query) on
StormEvents with two where conditions, a three-column project and limit 10
renders to exactly the documented text: conditions joined inline with the
literal and separator, project columns tab-indented one per line and
comma-terminated except the last, and a trailing newline at the end. -/
theorem filter_pipeline_renders_expected :
    table "StormEvents" = query "StormEvents"
    ∧ Except.map TableExpr.render
        (Except.bind
          (((table "StormEvents").where_
              [(col "State").eq (Scalar.str "WA"),
               (col "DamageProperty").gt (Scalar.int 100000)]).project
            ["State", "EventType", "DamageProperty"])
          (fun t => t.limit 10))
      = Except.ok "StormEvents\n| where State == 'WA' and DamageProperty > 100000\n| project\n\tState,\n\tEventType,\n\tDamageProperty\n| limit 10\n" :=
  ⟨rfl, rfl⟩

/-- Claim C2: the aggregate pipeline with project, summarize (one aggregation
and a two-column groupBy), sort and limit 20 renders to exactly the
documented text: the sort stage uses the verb order by, the summarize stage
renders the tab-indented name=expression assignment, and the non-empty
groupBy renders as a further tab-indented by line. -/
theorem summarize_pipeline_renders_expected :
    Except.map TableExpr.render
      (Except.bind
        (Except.bind
          (Except.bind ((table "StormEvents").project ["State", "EventType", "DamageProperty"])
            (fun t => t.summarize [("sum_damage", sum_ "DamageProperty")] ["State", "EventType"]))
          (fun t => t.sort ["sum_damage"]))
        (fun t => t.limit 20))
    = Except.ok "StormEvents\n| project\n\tState,\n\tEventType,\n\tDamageProperty\n| summarize\n\tsum_damage=sum(DamageProperty)\n\tby State, EventType\n| order by\n\tsum_damage\n| limit 20\n" :=
  rfl

/-- Claim C3: every stage-attaching operation that succeeds returns a new
table expression whose stage list is the receiver's stages plus the new
stage, with the base name and naming context unchanged; the receiver value
itself is untouched (attachment is a pure function of it). -/
theorem stage_attach_returns_appended (t : TableExpr) (cols scols gcols : List String)
    (conds : List Expr) (aggs : List (String × Expr)) (n : Int)
    (b1 b2 b3 b4 : TableExpr)
    (h1 : t.project cols = Except.ok b1) (h2 : t.summarize aggs gcols = Except.ok b2)
    (h3 : t.sort scols = Except.ok b3) (h4 : t.limit n = Except.ok b4) :
    t.where_ conds = { t with stages := t.stages ++ [Stage.where_ conds] }
    ∧ b1 = { t with stages := t.stages ++ [Stage.project cols] }
    ∧ b2 = { t with stages := t.stages ++ [Stage.summarize aggs gcols] }
    ∧ b3 = { t with stages := t.stages ++ [Stage.sort scols] }
    ∧ b4 = { t with stages := t.stages ++ [Stage.limit n] } := by
  refine ⟨rfl, ?_, ?_, ?_, ?_⟩
  · rw [TableExpr.project] at h1
    by_cases hc : cols.isEmpty = true
    · rw [if_pos hc] at h1; exact Except.noConfusion h1
    · rw [if_neg hc] at h1; injection h1 with h; exact h.symm
  · rw [TableExpr.summarize] at h2
    by_cases hc : aggs.isEmpty = true
    · rw [if_pos hc] at h2; exact Except.noConfusion h2
    · rw [if_neg hc] at h2; injection h2 with h; exact h.symm
  · rw [TableExpr.sort] at h3
    by_cases hc : scols.isEmpty = true
    · rw [if_pos hc] at h3; exact Except.noConfusion h3
    · rw [if_neg hc] at h3; injection h3 with h; exact h.symm
  · rw [TableExpr.limit] at h4
    by_cases hc : n < 0
    · rw [if_pos hc] at h4; exact Except.noConfusion h4
    · rw [if_neg hc] at h4; injection h4 with h; exact h.symm

/-- Witness for claim C3 at a concrete receiver and concrete stage
arguments. -/
theorem stage_attach_returns_appended_witness :
    (table "T").where_ [] = { name := "T", database := none, stages := [Stage.where_ []] } :=
  (stage_attach_returns_appended (table "T") ["a"] ["s"] [] [] [("x", sum_ "c")] 5
    { name := "T", database := none, stages := [Stage.project ["a"]] }
    { name := "T", database := none, stages := [Stage.summarize [("x", sum_ "c")] []] }
    { name := "T", database := none, stages := [Stage.sort ["s"]] }
    { name := "T", database := none, stages := [Stage.limit 5] }
    rfl rfl rfl rfl).1

/-- Claim C4: limit 0 succeeds on every table expression and the rendering of
the result ends with the full line containing limit 0, while every negative
count is rejected with InvalidStageArgument by the limit call itself (the
error is the call's return, not a render-time failure). -/
theorem limit_zero_ok_negative_rejected (t : TableExpr) (n : Int) (hn : n < 0) :
    (∃ b pre, t.limit 0 = Except.ok b ∧ b.render = pre ++ "\n| limit 0\n")
    ∧ t.limit n = Except.error KustoError.invalidStageArgument := by
  constructor
  · refine ⟨{ t with stages := t.stages ++ [Stage.limit 0] },
      joinSep "\n" (t.baseRef :: t.stages.map renderStage), rfl, ?_⟩
    show joinSep "\n" (t.baseRef :: (t.stages ++ [Stage.limit 0]).map renderStage) ++ "\n" = _
    rw [List.map_append, List.map_cons, List.map_nil, joinSep_cons_append]
    simp only [String.append_assoc]
    rfl
  · rw [TableExpr.limit, if_pos hn]

/-- Witness for claim C4 at the bare table T with the negative count -1. -/
theorem limit_zero_ok_negative_rejected_witness :
    (-1 : Int) < 0
    ∧ ((∃ b pre, (table "T").limit 0 = Except.ok b ∧ b.render = pre ++ "\n| limit 0\n")
      ∧ (table "T").limit (-1) = Except.error KustoError.invalidStageArgument) :=
  ⟨by decide, limit_zero_ok_negative_rejected (table "T") (-1) (by decide)⟩

/-- Claim C5: on a non-empty list, list_to_kusto produces the open bracket
line, then each quoted element on its own tab-indented line with a comma
after every element except the last, then the closing bracket: the head is
followed by the right-nested chain of comma-newline-tab prefixed quoted
elements ending in the closing bracket. -/
theorem list_to_kusto_nonempty_layout {α : Type} (qt : α → String) (v : α) (vs : List α) :
    list_to_kusto qt (v :: vs) =
      "dynamic([\n\t" ++
        (qt v ++ (vs.map (fun w => ",\n\t" ++ qt w)).foldr (fun a b => a ++ b) "\n])") := by
  show "dynamic([\n\t" ++ joinSep ",\n\t" ((v :: vs).map qt) ++ "\n])" = _
  rw [List.map_cons, String.append_assoc, joinSep_foldr]
  rw [List.map_map]
  rfl

/-- Claim C10: on the empty iterable, list_to_kusto produces the bracketed
block whose single content line holds only a tab character, and no error is
raised. -/
theorem list_to_kusto_empty_block {α : Type} (qt : α → String) :
    list_to_kusto qt ([] : List α) = "dynamic([\n\t\n])" := rfl

/-- Claim C6 (amended): for a query that is not an existing file path,
render_set produces the .set-or-append or .set-or-replace command for the
target table, a with block carrying the folder and docstring, then the
query after the pipe-in line; the output ends with the rendered query itself
because the template engine strips the template's trailing newline. -/
theorem render_set_wrapped_layout (isFile : String → Bool)
    (query table folder docstring : String) (replace : Bool)
    (h : isFile query = false) :
    render_set isFile query table folder docstring replace =
      Except.ok (".set-or-" ++ (if replace then "replace" else "append") ++ " " ++ table ++
        "\nwith (\nfolder = \"" ++ folder ++ "\",\ndocstring = \"" ++ docstring ++
        "\",\n)\n<|\n" ++ stripTrailingNewline query) := by
  simp only [render_set, render_template_query, maybe_read_file_not_file isFile query h,
    bind_ok_ex, map_ok_ex, pure_ex]

/-- Witness for claim C6 with a never-a-file filesystem and concrete
arguments, in the replace variant. -/
theorem render_set_wrapped_layout_witness :
    (fun _ : String => false) "Q\n" = false
    ∧ render_set (fun _ => false) "Q\n" "T" "F" "D" true =
        Except.ok ".set-or-replace T\nwith (\nfolder = \"F\",\ndocstring = \"D\",\n)\n<|\nQ" :=
  ⟨rfl, render_set_wrapped_layout (fun _ => false) "Q\n" "T" "F" "D" true rfl⟩

/-- Counterexample for claim C6 as stated: at a concrete non-file query, the
render_set output does not end with a newline character (its last character
is the last character of the query). -/
theorem render_set_trailing_newline_cex :
    render_set (fun _ => false) "foo" "T" "F" "D" false =
      Except.ok ".set-or-append T\nwith (\nfolder = \"F\",\ndocstring = \"D\",\n)\n<|\nfoo"
    ∧ (".set-or-append T\nwith (\nfolder = \"F\",\ndocstring = \"D\",\n)\n<|\nfoo" : String).data.getLast?
        ≠ some '\n' :=
  ⟨rfl, by decide⟩

/-- Claim C7: the cluster+database context renders the fully qualified
reference and the database-only context renders the database-qualified
reference with no cluster prefix. -/
theorem table_ref_exact (c d n : String) :
    KustoDatabase.table_ref ⟨c, d⟩ n =
      "cluster('" ++ c ++ "').database('" ++ d ++ "').['" ++ n ++ "']"
    ∧ DatabaseRef.table_ref ⟨d⟩ n = "database('" ++ d ++ "').['" ++ n ++ "']"
    ∧ ¬ ∃ rest, DatabaseRef.table_ref ⟨d⟩ n = "cluster" ++ rest := by
  refine ⟨rfl, rfl, ?_⟩
  rintro ⟨rest, h⟩
  have h2 := congrArg String.data h
  simp [DatabaseRef.table_ref, String.data_append] at h2

/-- Claim C8: on both naming contexts, table with inspect true fails
immediately with the unsupported-capability error (the RuntimeError raised
inside the table call itself), and with inspect false it returns a table
expression carrying that naming context. -/
theorem table_inspect_unsupported (c d nm : String) :
    KustoDatabase.table ⟨c, d⟩ nm true =
      Except.error (KustoError.unsupportedCapability "inspect=True is not supported in query-only mode.")
    ∧ KustoDatabase.table ⟨c, d⟩ nm false =
      Except.ok { name := nm, database := some (DbCtx.cdb ⟨c, d⟩), stages := [] }
    ∧ DatabaseRef.table ⟨d⟩ nm true =
      Except.error (KustoError.unsupportedCapability "inspect=True is not supported in query-only mode.")
    ∧ DatabaseRef.table ⟨d⟩ nm false =
      Except.ok { name := nm, database := some (DbCtx.dref ⟨d⟩), stages := [] } :=
  ⟨rfl, rfl, rfl, rfl⟩

/-- Claim C9: when the argument is an existing file path, maybe_read_file
fails with the NameError for the undefined module-level name logger, and both
render_template_query and render_set propagate that failure; when the
argument is not a file path, maybe_read_file returns it unchanged. -/
theorem maybe_read_file_logger_undefined (isFile : String → Bool)
    (query table folder docstring : String) (replace : Bool) :
    (isFile query = true →
      maybe_read_file isFile query = Except.error (KustoError.nameError "logger")
      ∧ render_template_query isFile query = Except.error (KustoError.nameError "logger")
      ∧ render_set isFile query table folder docstring replace =
          Except.error (KustoError.nameError "logger"))
    ∧ (isFile query = false → maybe_read_file isFile query = Except.ok query) := by
  constructor
  · intro h
    have hm := maybe_read_file_is_file isFile query h
    refine ⟨hm, ?_, ?_⟩
    · rw [render_template_query, hm, map_error_ex]
    · simp only [render_set, hm, bind_error_ex]
  · intro h
    exact maybe_read_file_not_file isFile query h

/-- Witness for claim C9: a filesystem on which exactly the path query.kql
exists; the file path fails with the logger NameError and a non-path query is
returned unchanged. -/
theorem maybe_read_file_logger_undefined_witness :
    ((fun s : String => s == "query.kql") "query.kql" = true
      ∧ maybe_read_file (fun s => s == "query.kql") "query.kql" =
          Except.error (KustoError.nameError "logger"))
    ∧ ((fun s : String => s == "query.kql") "bar" = false
      ∧ maybe_read_file (fun s => s == "query.kql") "bar" = Except.ok "bar") :=
  ⟨⟨by decide,
    ((maybe_read_file_logger_undefined (fun s => s == "query.kql") "query.kql" "T" "F" "D"
      false).1 (by decide)).1⟩,
   ⟨by decide,
    (maybe_read_file_logger_undefined (fun s => s == "query.kql") "bar" "T" "F" "D"
      false).2 (by decide)⟩⟩

end KustoTool
